import Mathlib

/-!
Shallow embedding of the physkit repository (eragasa/physkit) for
specification checking.

Conventions of the embedding:
- Python floats are modelled as exact rationals (ℚ); float literals are read
  as the decimal rationals they denote.  Real-valued library calls
  (np.power, np.sqrt, np.pi) are modelled over ℝ.
- Python exceptions are modelled with Except: a raised ValueError becomes
  an Except.error carrying the message (or a structured error value where
  the source interpolates data into the message).
- IntEnum units are modelled as inductive types together with their integer
  ordinals (toNat), mirroring the int(unit) coercion used by the source for
  tuple indexing.  Tuple indexing itself is modelled with list lookup, with
  Option.none standing for an IndexError.
-/

namespace Physkit

/-! ## physkit/units/pressure.py -/

namespace Pressure

/-- Pressure.Units enumeration (IntEnum) from physkit/units/pressure.py. -/
inductive Units where
  | Pa | kPa | MPa | GPa | bar | atm | mbar | hPa | Torr | mmHg | psi | Ba | cmH2O | atomic
deriving DecidableEq, Repr

/-- Integer ordinal of each enum member, as assigned in the source. -/
def Units.toNat : Units → Nat
  | .Pa => 0
  | .kPa => 1
  | .MPa => 2
  | .GPa => 3
  | .bar => 4
  | .atm => 5
  | .mbar => 6
  | .hPa => 7
  | .Torr => 8
  | .mmHg => 9
  | .psi => 10
  | .Ba => 11
  | .cmH2O => 12
  | .atomic => 13

/-- Hartree energy in J (source constant _EH). -/
def EH : ℚ := 4.3597447222071e-18

/-- Bohr radius in m (source constant _A0). -/
def A0 : ℚ := 5.29177210903e-11

/-- Atomic pressure unit P0 = Eh / a0^3 (source constant _P0). -/
def P0 : ℚ := EH / (A0 ^ 3)

/-- Conversion factors TO Pa, index matches the Units enum (source tuple _TO_PA). -/
def TO_PA : List ℚ :=
  [ 1.0,                 -- Pa
    1.0e3,               -- kPa
    1.0e6,               -- MPa
    1.0e9,               -- GPa
    1.0e5,               -- bar
    101325.0,            -- atm
    100.0,               -- mbar
    100.0,               -- hPa
    101325.0 / 760.0,    -- Torr
    101325.0 / 760.0,    -- mmHg (treated as Torr)
    6894.757293168,      -- psi
    0.1,                 -- Ba (barye)
    98.0665,             -- cmH2O
    P0 ]                 -- atomic

/-- Pressure.convert applied to integer ordinals: tuple indexing via int(unit).
An out-of-range ordinal is an IndexError, modelled as none.  The body mirrors
value * (_TO_PA[int(unit_from)] / _TO_PA[int(to)]). -/
def convertIdx (value : ℚ) (i j : Nat) : Option ℚ :=
  match TO_PA[i]?, TO_PA[j]? with
  | some sf, some st => some (value * (sf / st))
  | _, _ => none

/-- Pressure.convert on genuine enum members (int(unit) = toNat). -/
def convert (value : ℚ) (unit_from unit_to : Units) : Option ℚ :=
  convertIdx value unit_from.toNat unit_to.toNat

/-- Scale factor of a genuine enum member (its tuple entry). -/
def scale (u : Units) : ℚ := (TO_PA[u.toNat]?).getD 0

/-- Pressure.to_canonical: value * _TO_PA[int(unit)]. -/
def to_canonical (value : ℚ) (unit : Units) : ℚ := value * scale unit

/-- Pressure.from_canonical: value_pa / _TO_PA[int(unit)]. -/
def from_canonical (value_pa : ℚ) (unit : Units) : ℚ := value_pa / scale unit

end Pressure

/-! ## physkit/units/temperature.py -/

namespace Temperature

/-- Temperature.Units enumeration (IntEnum) from physkit/units/temperature.py. -/
inductive Units where
  | K | C | mK | F | R
deriving DecidableEq, Repr

/-- Integer ordinal of each enum member, as assigned in the source. -/
def Units.toNat : Units → Nat
  | .K => 0
  | .C => 1
  | .mK => 2
  | .F => 3
  | .R => 4

/-- Scale factors to K, index matches the Units enum (source tuple _SCALE_TO_K). -/
def SCALE_TO_K : List ℚ :=
  [ 1.0,        -- K
    1.0,        -- C
    1.0e-3,     -- mK
    5.0 / 9.0,  -- F
    5.0 / 9.0 ] -- R

/-- Offsets to K, index matches the Units enum (source tuple _OFFSET_TO_K). -/
def OFFSET_TO_K : List ℚ :=
  [ 0.0,                -- K
    273.15,             -- C
    0.0,                -- mK
    459.67 * 5.0 / 9.0, -- F
    0.0 ]               -- R

/-- Temperature.convert applied to integer ordinals (tuple indexing via
int(unit); out-of-range is an IndexError, modelled as none).  The body
mirrors the two-step source: value_k = value*scale[from]+offset[from],
then (value_k - offset[to]) / scale[to]. -/
def convertIdx (value : ℚ) (i j : Nat) : Option ℚ :=
  match SCALE_TO_K[i]?, OFFSET_TO_K[i]?, SCALE_TO_K[j]?, OFFSET_TO_K[j]? with
  | some sf, some of_, some st, some ot =>
      some ((value * sf + of_ - ot) / st)
  | _, _, _, _ => none

/-- Temperature.convert on genuine enum members. -/
def convert (value : ℚ) (unit_from unit_to : Units) : Option ℚ :=
  convertIdx value unit_from.toNat unit_to.toNat

/-- Scale table entry of a genuine enum member. -/
def scale (u : Units) : ℚ := (SCALE_TO_K[u.toNat]?).getD 0

/-- Offset table entry of a genuine enum member. -/
def offset (u : Units) : ℚ := (OFFSET_TO_K[u.toNat]?).getD 0

/-- Temperature.to_canonical: value * scale[unit] + offset[unit]. -/
def to_canonical (value : ℚ) (unit : Units) : ℚ :=
  value * scale unit + offset unit

/-- Temperature.from_canonical: (value_k - offset[unit]) / scale[unit]. -/
def from_canonical (value_k : ℚ) (unit : Units) : ℚ :=
  (value_k - offset unit) / scale unit

end Temperature

/-! ## physkit/units/length.py

For the quantity modules below, only the scale table and the canonical
conversion helpers are claim-relevant.  Unit enumerations are integer-backed
(IntEnum); a unit is identified with its ordinal, so the helpers take a
`Fin table.length` index (the set of ordinals of the enumeration). -/

namespace Length

/-- Bohr radius in m (source constant _A0). -/
def A0 : ℚ := 5.29177210903e-11

/-- Scale factors to m for units m, km, cm, mm, um, nm, pm, Angstrom, bohr,
inch, foot, yard, mile (source tuple _TO_M). -/
def TO_M : List ℚ :=
  [ 1.0, 1.0e3, 1.0e-2, 1.0e-3, 1.0e-6, 1.0e-9, 1.0e-12,
    1.0e-10, A0,
    0.0254, 0.3048, 0.9144, 1609.344 ]

/-- Length._to_canonical: value * _TO_M[int(unit)]. -/
def to_canonical (value : ℚ) (u : Fin TO_M.length) : ℚ := value * TO_M.get u

/-- Length._from_canonical: value_m / _TO_M[int(unit)]. -/
def from_canonical (value_m : ℚ) (u : Fin TO_M.length) : ℚ := value_m / TO_M.get u

end Length

/-! ## physkit/units/mass.py -/

namespace Mass

/-- Scale factors to kg for units kg, g, mg, t, lbm, oz, g_per_mol, amu, me
(source tuple _TO_KG). -/
def TO_KG : List ℚ :=
  [ 1.0, 1.0e-3, 1.0e-6, 1.0e3,
    0.45359237, 0.028349523125,
    1.0e-3, 1.66053906660e-27, 9.1093837015e-31 ]

/-- Mass._to_canonical. -/
def to_canonical (value : ℚ) (u : Fin TO_KG.length) : ℚ := value * TO_KG.get u

/-- Mass._from_canonical. -/
def from_canonical (value_kg : ℚ) (u : Fin TO_KG.length) : ℚ := value_kg / TO_KG.get u

end Mass

/-! ## physkit/units/time.py -/

namespace Time

/-- Atomic time unit t0 in s (source constant _T0). -/
def T0 : ℚ := 2.4188843265857e-17

/-- Scale factors to s for units s, ms, us, ns, ps, fs, min, hr, day, atomic
(source tuple _TO_S). -/
def TO_S : List ℚ :=
  [ 1.0, 1.0e-3, 1.0e-6, 1.0e-9, 1.0e-12, 1.0e-15,
    60.0, 3600.0, 86400.0, T0 ]

/-- Time._to_canonical. -/
def to_canonical (value : ℚ) (u : Fin TO_S.length) : ℚ := value * TO_S.get u

/-- Time._from_canonical. -/
def from_canonical (value_s : ℚ) (u : Fin TO_S.length) : ℚ := value_s / TO_S.get u

end Time

/-! ## physkit/units/energy.py -/

namespace Energy

/-- Elementary charge in C (source constant _Q). -/
def Q : ℚ := 1.602176634e-19

/-- Hartree energy in J (source constant _EH). -/
def EH : ℚ := 4.3597447222071e-18

/-- Scale factors to J for units J, kJ, MJ, eV, meV, keV, MeV, GeV, erg,
ft_lbf, in_lbf, kcal, kcal_per_mol, Ha (source tuple _TO_J). -/
def TO_J : List ℚ :=
  [ 1.0, 1.0e3, 1.0e6,
    1.0 * Q, 1.0e-3 * Q, 1.0e3 * Q, 1.0e6 * Q, 1.0e9 * Q,
    1.0e-7,
    1.3558179483314, 1.3558179483314 / 12,
    4184.0, 4184.0,
    EH ]

/-- Energy._to_canonical. -/
def to_canonical (value : ℚ) (u : Fin TO_J.length) : ℚ := value * TO_J.get u

/-- Energy._from_canonical. -/
def from_canonical (value_J : ℚ) (u : Fin TO_J.length) : ℚ := value_J / TO_J.get u

end Energy

/-! ## physkit/units/force.py -/

namespace Force

def A_TO_M : ℚ := 1.0e-10
def A0 : ℚ := 5.29177210903e-11
def EH : ℚ := 4.3597447222071e-18
def E : ℚ := 1.602176634e-19
def EV_PER_A_TO_N : ℚ := E / A_TO_M
def HA_PER_BOHR_TO_N : ℚ := EH / A0
def KCAL_TO_J : ℚ := 4184.0
def N_A : ℚ := 6.02214076e23
def KCAL_PER_MOL_A_TO_N : ℚ := (KCAL_TO_J / N_A) / A_TO_M

/-- Scale factors to N for units N, kN, MN, dyn, lbf, kcal_per_mol_A,
eV_per_A, Ha_per_bohr (source tuple _TO_N). -/
def TO_N : List ℚ :=
  [ 1.0, 1.0e3, 1.0e6, 1.0e-5,
    4.4482216152605,
    KCAL_PER_MOL_A_TO_N, EV_PER_A_TO_N, HA_PER_BOHR_TO_N ]

/-- Force._to_canonical. -/
def to_canonical (value : ℚ) (u : Fin TO_N.length) : ℚ := value * TO_N.get u

/-- Force._from_canonical. -/
def from_canonical (value_N : ℚ) (u : Fin TO_N.length) : ℚ := value_N / TO_N.get u

end Force

/-! ## physkit/units/charge.py -/

namespace Charge

def E : ℚ := 1.602176634e-19
def C_CM_PER_S : ℚ := 2.99792458e10
def ESU_TO_C : ℚ := 0.1 / C_CM_PER_S

/-- Scale factors to C for units C, esu, e, atomic (source tuple _TO_C). -/
def TO_C : List ℚ := [ 1.0, ESU_TO_C, E, E ]

/-- Charge._to_canonical. -/
def to_canonical (value : ℚ) (u : Fin TO_C.length) : ℚ := value * TO_C.get u

/-- Charge._from_canonical. -/
def from_canonical (value_C : ℚ) (u : Fin TO_C.length) : ℚ := value_C / TO_C.get u

end Charge

/-! ## physkit/units/dipole.py -/

namespace Dipole

def E : ℚ := 1.602176634e-19
def C_CM_PER_S : ℚ := 2.99792458e10
def ESU_TO_C : ℚ := 0.1 / C_CM_PER_S
def CM_TO_M : ℚ := 1.0e-2
def A_TO_M : ℚ := 1.0e-10
def A0 : ℚ := 5.29177210903e-11
def DEBYE_TO_C_M : ℚ := 1.0e-18 * ESU_TO_C * CM_TO_M

/-- Scale factors to C·m for units C_m, esu_cm, Debye, e_A, atomic
(source tuple _TO_C_M). -/
def TO_C_M : List ℚ :=
  [ 1.0, ESU_TO_C * CM_TO_M, DEBYE_TO_C_M, E * A_TO_M, E * A0 ]

/-- Dipole._to_canonical. -/
def to_canonical (value : ℚ) (u : Fin TO_C_M.length) : ℚ := value * TO_C_M.get u

/-- Dipole._from_canonical. -/
def from_canonical (value_C_m : ℚ) (u : Fin TO_C_M.length) : ℚ := value_C_m / TO_C_M.get u

end Dipole

/-! ## physkit/units/electricfield.py -/

namespace ElectricField

def CM_TO_M : ℚ := 1.0e-2
def A_TO_M : ℚ := 1.0e-10
def E : ℚ := 1.602176634e-19
def A0 : ℚ := 5.29177210903e-11
def EH : ℚ := 4.3597447222071e-18
def E0 : ℚ := EH / (E * A0)
def C_CM_PER_S : ℚ := 2.99792458e10
def STATV_TO_V : ℚ := 1.0e-6 * C_CM_PER_S

/-- Scale factors to V/m for units V_per_m, V_per_cm, V_per_A, statV_per_cm,
atomic (source tuple _TO_V_per_m). -/
def TO_V_per_m : List ℚ :=
  [ 1.0, 1.0 / CM_TO_M, 1.0 / A_TO_M, STATV_TO_V / CM_TO_M, E0 ]

/-- ElectricField._to_canonical. -/
def to_canonical (value : ℚ) (u : Fin TO_V_per_m.length) : ℚ := value * TO_V_per_m.get u

/-- ElectricField._from_canonical. -/
def from_canonical (value_V_m : ℚ) (u : Fin TO_V_per_m.length) : ℚ := value_V_m / TO_V_per_m.get u

end ElectricField

/-! ## physkit/units/velocity.py -/

namespace Velocity

def CM_TO_M : ℚ := 1.0e-2
def A_TO_M : ℚ := 1.0e-10
def FS_TO_S : ℚ := 1.0e-15
def PS_TO_S : ℚ := 1.0e-12
def A0 : ℚ := 5.29177210903e-11
def T0 : ℚ := 2.4188843265857e-17
def BOHR_PER_T0_TO_M_PER_S : ℚ := A0 / T0

/-- Scale factors to m/s for units m_per_s, cm_per_s, A_per_fs, A_per_ps,
bohr_per_t0, atomic (source tuple _TO_m_per_s). -/
def TO_m_per_s : List ℚ :=
  [ 1.0, CM_TO_M, A_TO_M / FS_TO_S, A_TO_M / PS_TO_S,
    BOHR_PER_T0_TO_M_PER_S, BOHR_PER_T0_TO_M_PER_S ]

/-- Velocity._to_canonical. -/
def to_canonical (value : ℚ) (u : Fin TO_m_per_s.length) : ℚ := value * TO_m_per_s.get u

/-- Velocity._from_canonical. -/
def from_canonical (value_m_s : ℚ) (u : Fin TO_m_per_s.length) : ℚ := value_m_s / TO_m_per_s.get u

end Velocity

/-! ## physkit/units/viscosity.py -/

namespace Viscosity

/-- Scale factors to Pa·s for units Pa_s, Poise, cPoise (source tuple _TO_Pa_s). -/
def TO_Pa_s : List ℚ := [ 1.0, 1.0e-1, 1.0e-3 ]

/-- Viscosity._to_canonical. -/
def to_canonical (value : ℚ) (u : Fin TO_Pa_s.length) : ℚ := value * TO_Pa_s.get u

/-- Viscosity._from_canonical. -/
def from_canonical (value_Pa_s : ℚ) (u : Fin TO_Pa_s.length) : ℚ := value_Pa_s / TO_Pa_s.get u

end Viscosity

/-! ## physkit/units/torque.py -/

namespace Torque

def Q : ℚ := 1.602176634e-19
def FT_LBF_TO_N_M : ℚ := 1.3558179483314
def IN_LBF_TO_N_M : ℚ := FT_LBF_TO_N_M / 12.0

/-- Scale factors to N·m for units N_m, dyn_cm, ft_lbf, in_lbf, eV, Ha, kcal,
kcal_per_mol (source tuple _TO_N_M). -/
def TO_N_M : List ℚ :=
  [ 1.0, 1.0e-7, FT_LBF_TO_N_M, IN_LBF_TO_N_M,
    1.0 * Q, 4.3597447222071e-18, 4184.0, 4184.0 ]

/-- Torque._to_canonical. -/
def to_canonical (value : ℚ) (u : Fin TO_N_M.length) : ℚ := value * TO_N_M.get u

/-- Torque._from_canonical. -/
def from_canonical (value_N_m : ℚ) (u : Fin TO_N_M.length) : ℚ := value_N_m / TO_N_M.get u

end Torque

/-! ## physkit/units/mass_molar.py -/

namespace MolarMass

/-- Scale factors to kg/mol for units g_per_mol, kg_per_mol, kg_per_kmol
(source tuple _TO_KG_PER_MOL). -/
def TO_KG_PER_MOL : List ℚ := [ 1.0e-3, 1.0, 1.0e-3 ]

/-- MolarMass.to_canonical. -/
def to_canonical (value : ℚ) (u : Fin TO_KG_PER_MOL.length) : ℚ :=
  value * TO_KG_PER_MOL.get u

/-- MolarMass.from_canonical. -/
def from_canonical (value_kg_per_mol : ℚ) (u : Fin TO_KG_PER_MOL.length) : ℚ :=
  value_kg_per_mol / TO_KG_PER_MOL.get u

end MolarMass

namespace ParticleMass

/-- Source: _MU = getattr(ConstantsSI, "m_u", 1.66053906660e-27); ConstantsSI
declares m_u = 1.660_539_068_92e-27, so the getattr lookup succeeds. -/
def MU : ℚ := 1.66053906892e-27

/-- Scale factors to kg for units kg, amu (source tuple _TO_KG). -/
def TO_KG : List ℚ := [ 1.0, MU ]

/-- ParticleMass.to_canonical. -/
def to_canonical (value : ℚ) (u : Fin TO_KG.length) : ℚ := value * TO_KG.get u

/-- ParticleMass.from_canonical. -/
def from_canonical (value_kg : ℚ) (u : Fin TO_KG.length) : ℚ := value_kg / TO_KG.get u

end ParticleMass

/-! ## physkit/units/density.py -/

namespace Density

def G_TO_KG : ℚ := 1.0e-3
def CM_TO_M : ℚ := 1.0e-2
def M_E : ℚ := 9.1093837015e-31
def A0 : ℚ := 5.29177210903e-11

/-- Scale factors to kg/m^dim for units kg_per_m_dim (0), g_per_cm_dim (1),
kg_per_m3 (2), g_per_cm3 (3), atomic (4) (source tuple _TO_KG_PER_M_DIM). -/
def TO_KG_PER_M_DIM : List ℚ :=
  [ 1.0,
    G_TO_KG * CM_TO_M ^ (-1 : ℤ),
    1.0,
    G_TO_KG * CM_TO_M ^ (-3 : ℤ),
    M_E * A0 ^ (-1 : ℤ) ]

/-- Density._to_canonical: looks up the scale, rejects fixed-3D units
(ordinals 2, 3) when dim is not 3, and applies scale**dim for the
dim-generic units g_per_cm_dim (1) and atomic (4). -/
def to_canonical (value : ℚ) (u : Fin TO_KG_PER_M_DIM.length) (dim : ℤ) :
    Except String ℚ :=
  let scale := TO_KG_PER_M_DIM.get u
  if (u.val = 2 ∨ u.val = 3) ∧ dim ≠ 3 then
    .error "Fixed 3D density units require dim = 3"
  else
    .ok (value * (if u.val = 1 ∨ u.val = 4 then scale ^ dim else scale))

/-- Density._from_canonical: same checks, dividing instead of multiplying. -/
def from_canonical (value_kg_m_dim : ℚ) (u : Fin TO_KG_PER_M_DIM.length) (dim : ℤ) :
    Except String ℚ :=
  let scale := TO_KG_PER_M_DIM.get u
  if (u.val = 2 ∨ u.val = 3) ∧ dim ≠ 3 then
    .error "Fixed 3D density units require dim = 3"
  else
    .ok (value_kg_m_dim / (if u.val = 1 ∨ u.val = 4 then scale ^ dim else scale))

end Density

/-! ## physkit/discretization/grid_1d.py -/

/-- GridType1D enumeration. -/
inductive GridType1D where
  | LEFT_CLOSED | RIGHT_CLOSED | OPEN | INTERIOR | MIDPOINT | CLOSED
deriving DecidableEq, Repr

/-- Grid1D frozen dataclass fields. -/
structure Grid1D where
  a : ℚ
  b : ℚ
  N : ℤ
  grid_type : GridType1D := GridType1D.CLOSED
deriving DecidableEq, Repr

namespace Grid1D

/-- Grid1D.__post_init__ validation, in source order. -/
def postInit (a b : ℚ) (N : ℤ) (grid_type : GridType1D) : Except String Unit :=
  if b ≤ a then .error "Require b > a"
  else if N ≤ 0 then .error "Require N > 0"
  else if grid_type = GridType1D.CLOSED ∧ N < 2 then
    .error "For CLOSED grid, require N >=2"
  else .ok ()

/-- Grid1D.L = b - a. -/
def L (g : Grid1D) : ℚ := g.b - g.a

/-- Grid1D.dx, following the if/elif chain of the source (the trailing else
covers LEFT_CLOSED, RIGHT_CLOSED and MIDPOINT). -/
def dx (g : Grid1D) : ℚ :=
  if g.grid_type = GridType1D.CLOSED then g.L / ((g.N : ℚ) - 1)
  else if g.grid_type = GridType1D.OPEN then g.L / ((g.N : ℚ) + 1)
  else if g.grid_type = GridType1D.INTERIOR then g.L / ((g.N : ℚ) + 1)
  else g.L / (g.N : ℚ)

/-- Grid1D.x_arr.  np.arange(N) is List.range N; np.linspace(a, b, N) places
point i at a + i*(b-a)/(N-1) (numpy computes start + i*step with
step = (b-a)/(N-1) and pins the final point to b, which coincides exactly in
rational arithmetic). -/
def x_arr (g : Grid1D) : List ℚ :=
  match g.grid_type with
  | GridType1D.LEFT_CLOSED =>
      (List.range g.N.toNat).map (fun i : ℕ => g.a + g.dx * (i : ℚ))
  | GridType1D.RIGHT_CLOSED =>
      (List.range g.N.toNat).map (fun i : ℕ => g.a + g.dx * ((i : ℚ) + 1))
  | GridType1D.OPEN =>
      (List.range g.N.toNat).map (fun i : ℕ => g.a + g.dx * ((i : ℚ) + 1))
  | GridType1D.INTERIOR =>
      (List.range g.N.toNat).map (fun i : ℕ => g.a + g.dx * ((i : ℚ) + 1))
  | GridType1D.MIDPOINT =>
      (List.range g.N.toNat).map (fun i : ℕ => g.a + g.dx * ((i : ℚ) + 0.5))
  | GridType1D.CLOSED =>
      (List.range g.N.toNat).map
        (fun i : ℕ => g.a + (i : ℚ) * ((g.b - g.a) / ((g.N : ℚ) - 1)))

/-- Grid1D.X is an alias for x_arr. -/
def X (g : Grid1D) : List ℚ := g.x_arr

end Grid1D

/-! ## physkit/materials/mixtures/molar.py -/

namespace MolarMixture

/-- np.isclose default relative tolerance. -/
def rtol : ℚ := 1.0e-5

/-- np.isclose default absolute tolerance. -/
def atol : ℚ := 1.0e-8

/-- np.isclose(a, b) with default tolerances:
absolute(a - b) <= (atol + rtol * absolute(b)). -/
def npIsclose (a b : ℚ) : Prop := |a - b| ≤ atol + rtol * |b|

instance (a b : ℚ) : Decidable (npIsclose a b) :=
  inferInstanceAs (Decidable (|a - b| ≤ atol + rtol * |b|))

/-- MolarMixture.__post_init__ validation, in source order: length agreement
of names and X_arr, non-negativity of every fraction (np.any(X < 0)), and
np.isclose of the fraction sum with 1.0. -/
def postInit (names : List String) (X_arr : List ℚ) : Except String Unit :=
  if names.length ≠ X_arr.length then
    .error "names and X_arr must have the same length"
  else if ∃ x ∈ X_arr, x < 0 then
    .error "Mole fractions must be non-negative"
  else if ¬ npIsclose X_arr.sum 1.0 then
    .error "Mole fractions must sum to 1"
  else .ok ()

end MolarMixture

/-! ## notebooks/thinfilm/vapor_pressure.py -/

/-- Error values raised by the vapor-pressure and flux models.  Each
constructor stands for one ValueError site of the source; outOfRange carries
the interpolated bounds of its message, and invalidParam carries the literal
message of the parameter checks in hertz_knudsen.py. -/
inductive VPError where
  | nonpositiveT
  | outOfRange (Tmin Tmax : ℚ)
  | singularity
  | invalidParam (msg : String)
deriving DecidableEq, Repr

/-- VaporPressureAntoineCurve: the fields of VaporPressureCurveBase
(P_unit, T_unit, valid_range_K, source) followed by the subclass fields
(A, B, C, P_unit_native, T_unit_native), with the source dataclass defaults. -/
structure AntoineCurve where
  P_unit : Pressure.Units
  T_unit : Temperature.Units
  valid_range_K : Option (ℚ × ℚ) := none
  source : String := "unknown"
  A : ℚ
  B : ℚ
  C : ℚ
  P_unit_native : Pressure.Units := Pressure.Units.bar
  T_unit_native : Temperature.Units := Temperature.Units.K
deriving DecidableEq, Repr

namespace AntoineCurve

/-- VaporPressureCurveBase._temperature_to_kelvin: Temperature.to_canonical
with the instance T_unit. -/
def temperature_to_kelvin (c : AntoineCurve) (T : ℚ) : ℚ :=
  Temperature.to_canonical T c.T_unit

/-- VaporPressureCurveBase._check_temperature_K: reject T_K <= 0
unconditionally, then enforce valid_range_K when check_range is set and a
range is declared. -/
def checkTemperatureK (c : AntoineCurve) (T_K : ℚ) (check_range : Bool) :
    Except VPError Unit :=
  if T_K ≤ 0 then .error VPError.nonpositiveT
  else
    match check_range, c.valid_range_K with
    | true, some (Tmin, Tmax) =>
        if T_K < Tmin ∨ Tmax < T_K then .error (VPError.outOfRange Tmin Tmax)
        else .ok ()
    | _, _ => .ok ()

/-- np.power(10.0, x) over the reals. -/
noncomputable def pow10 (q : ℚ) : ℝ := (10 : ℝ) ^ (q : ℝ)

/-- Pressure.convert applied to a real magnitude (the Antoine evaluation
feeds it the real-valued native pressure): value * (scale from / scale to). -/
noncomputable def pressureConvertReal (value : ℝ)
    (unit_from unit_to : Pressure.Units) : ℝ :=
  value * ((Pressure.scale unit_from / Pressure.scale unit_to : ℚ) : ℝ)

/-- VaporPressureAntoineCurve._P_Pa_from_K: the Antoine singularity check on
T_K + C, then log10P = A - B/(T_K + C), P_native = 10**log10P, and the
native-to-Pa conversion (skipped when the native unit is already Pa). -/
noncomputable def P_Pa_from_K (c : AntoineCurve) (T_K : ℚ) (_check_range : Bool) :
    Except VPError ℝ :=
  if T_K + c.C = 0 then .error VPError.singularity
  else
    let log10P := c.A - c.B / (T_K + c.C)
    let P_native := pow10 log10P
    if c.P_unit_native = Pressure.Units.Pa then .ok P_native
    else .ok (pressureConvertReal P_native c.P_unit_native Pressure.Units.Pa)

/-- VaporPressureCurveBase.P_Pa: convert the input to Kelvin, validate, then
delegate to the Antoine formula. -/
noncomputable def P_Pa (c : AntoineCurve) (T : ℚ) (check_range : Bool) :
    Except VPError ℝ := do
  let T_K := temperature_to_kelvin c T
  checkTemperatureK c T_K check_range
  P_Pa_from_K c T_K check_range

/-- VaporPressureAntoineCurve.log10P_native_from_K: validate T_K, check the
singularity, and return A - B/(T_K + C). -/
def log10P_native_from_K (c : AntoineCurve) (T_K : ℚ) (check_range : Bool) :
    Except VPError ℚ := do
  checkTemperatureK c T_K check_range
  if T_K + c.C = 0 then .error VPError.singularity
  else .ok (c.A - c.B / (T_K + c.C))

/-- Spec-side Antoine log10 formula, written from the words of the claim and
the class docstring rather than from the code: T_coeff is T_K re-expressed in
the declared coefficient-table unit T_unit_native, so
log10(P_native) = A - B/(T_coeff + C). -/
def specAntoineLog10 (c : AntoineCurve) (T_K : ℚ) : ℚ :=
  c.A - c.B / (Temperature.from_canonical T_K c.T_unit_native + c.C)

end AntoineCurve

/-! ## notebooks/thinfilm/hertz_knudsen.py -/

/-- ConstantsSI.k_B in J/K. -/
def kB : ℚ := 1.380649e-23

/-- HertzKnudsenLangmuir frozen dataclass fields, with the source defaults.
The vapor_pressure field holds the concrete VaporPressureCurve implementation
of the repository, the Antoine curve. -/
structure HertzKnudsenLangmuir where
  vapor_pressure : AntoineCurve
  m_kg : ℚ
  alpha : ℚ := 1.0
  P_bg_Pa : ℚ := 0.0
deriving DecidableEq, Repr

namespace HertzKnudsenLangmuir

/-- The dataclass-generated constructor.  HertzKnudsenLangmuir defines no
__post_init__, so construction only assigns the fields and cannot raise. -/
def construct (vp : AntoineCurve) (m_kg alpha P_bg_Pa : ℚ) :
    Except VPError HertzKnudsenLangmuir :=
  .ok ⟨vp, m_kg, alpha, P_bg_Pa⟩

/-- HertzKnudsenLangmuir._validate, in source order. -/
def validate (h : HertzKnudsenLangmuir) : Except VPError Unit :=
  if h.alpha < 0 then .error (VPError.invalidParam "alpha must be >= 0.")
  else if h.m_kg ≤ 0 then .error (VPError.invalidParam "m_kg must be > 0.")
  else if h.P_bg_Pa < 0 then .error (VPError.invalidParam "P_bg_Pa must be >= 0.")
  else .ok ()

/-- HertzKnudsenLangmuir._T_to_K: convert using the T_unit of the
vapor-pressure model, then reject non-positive Kelvin values. -/
def T_to_K (h : HertzKnudsenLangmuir) (T : ℚ) : Except VPError ℚ :=
  let T_K := Temperature.to_canonical T h.vapor_pressure.T_unit
  if T_K ≤ 0 then .error VPError.nonpositiveT else .ok T_K

/-- HertzKnudsenLangmuir.Phi: validate the parameters, evaluate the
equilibrium pressure, clip the net pressure at zero, and divide by the
thermal denominator sqrt(2 pi m k_B T). -/
noncomputable def Phi (h : HertzKnudsenLangmuir) (T : ℚ) (check_range : Bool) :
    Except VPError ℝ := do
  validate h
  let P_eq ← AntoineCurve.P_Pa h.vapor_pressure T check_range
  let P_net : ℝ := max (P_eq - (h.P_bg_Pa : ℝ)) 0
  let T_K ← T_to_K h T
  .ok ((h.alpha : ℝ) * P_net /
    Real.sqrt (2 * Real.pi * (h.m_kg : ℝ) * (kB : ℝ) * (T_K : ℝ)))

/-- HertzKnudsenLangmuir.Gamma: m_kg * Phi, propagating any error of Phi. -/
noncomputable def Gamma (h : HertzKnudsenLangmuir) (T : ℚ) (check_range : Bool) :
    Except VPError ℝ :=
  (Phi h T check_range).map (fun phi => (h.m_kg : ℝ) * phi)

end HertzKnudsenLangmuir

/-! ## Concrete instances used by individual claims -/

/-- Antoine curve with a Celsius coefficient table (T_unit_native = C) and
native pressure already in Pa; inputs in Kelvin, no declared range. -/
def c1curve : AntoineCurve :=
  { P_unit := Pressure.Units.Pa, T_unit := Temperature.Units.K,
    valid_range_K := none, source := "unknown",
    A := 7, B := 1000, C := 200,
    P_unit_native := Pressure.Units.Pa, T_unit_native := Temperature.Units.C }

/-- Simple Antoine curve used as the vapor-pressure member of flux models. -/
def c3curve : AntoineCurve :=
  { P_unit := Pressure.Units.Pa, T_unit := Temperature.Units.K,
    valid_range_K := none, source := "unknown",
    A := 10, B := 1000, C := 0,
    P_unit_native := Pressure.Units.Pa, T_unit_native := Temperature.Units.K }

/-- Antoine curve with a declared validity range of [200, 400] K. -/
def c7curve : AntoineCurve :=
  { P_unit := Pressure.Units.Pa, T_unit := Temperature.Units.K,
    valid_range_K := some (200, 400), source := "unknown",
    A := 10, B := 1000, C := 0,
    P_unit_native := Pressure.Units.Pa, T_unit_native := Temperature.Units.K }

/-! ## Helper lemmas -/

/-- Table lookup at the ordinal of a genuine Pressure unit always succeeds. -/
theorem Pressure.pressure_lookup_toNat (u : Pressure.Units) :
    Pressure.TO_PA[u.toNat]? = some (Pressure.scale u) := by
  cases u <;> rfl

/-- The Pressure scale table has no zero entry. -/
theorem Pressure.pressure_scale_ne_zero (u : Pressure.Units) : Pressure.scale u ≠ 0 := by
  cases u <;> simp [Pressure.scale, Pressure.Units.toNat, Pressure.TO_PA,
    Pressure.P0, Pressure.EH, Pressure.A0] <;> norm_num

/-- Table lookups at the ordinal of a genuine Temperature unit always succeed. -/
theorem Temperature.temperature_lookup_toNat (u : Temperature.Units) :
    Temperature.SCALE_TO_K[u.toNat]? = some (Temperature.scale u) ∧
    Temperature.OFFSET_TO_K[u.toNat]? = some (Temperature.offset u) := by
  cases u <;> exact ⟨rfl, rfl⟩

/-- The Temperature scale table has no zero entry. -/
theorem Temperature.temperature_scale_ne_zero (u : Temperature.Units) : Temperature.scale u ≠ 0 := by
  cases u <;> simp [Temperature.scale, Temperature.Units.toNat,
    Temperature.SCALE_TO_K] <;> norm_num

/-- Round trip through a canonical scale table: multiplying by a table entry
and dividing by it again is the identity when the table has no zero entry. -/
theorem table_roundtrip (x : ℚ) (T : List ℚ) (h : ∀ s ∈ T, s ≠ 0)
    (u : Fin T.length) : x * T.get u / T.get u = x :=
  mul_div_cancel_right₀ x (h _ (T.get_mem u.val u.isLt))

/-- Unfolding of the P_Pa pipeline: validate the Kelvin temperature, then
delegate to the Antoine formula. -/
theorem AntoineCurve.P_Pa_def (c : AntoineCurve) (T : ℚ) (cr : Bool) :
    AntoineCurve.P_Pa c T cr =
      Except.bind
        (AntoineCurve.checkTemperatureK c (AntoineCurve.temperature_to_kelvin c T) cr)
        (fun _ => AntoineCurve.P_Pa_from_K c (AntoineCurve.temperature_to_kelvin c T) cr) :=
  rfl

/-- The Antoine formula itself raises only the singularity error: it can
never produce a range error. -/
theorem AntoineCurve.P_Pa_from_K_not_outOfRange (c : AntoineCurve) (T_K : ℚ)
    (cr : Bool) (lo hi : ℚ) :
    AntoineCurve.P_Pa_from_K c T_K cr ≠ Except.error (VPError.outOfRange lo hi) := by
  unfold AntoineCurve.P_Pa_from_K
  split_ifs <;> simp

/-- For positive Kelvin input, the temperature check produces an out-of-range
error exactly when range checking is on, a range is declared, and the input
falls outside it. -/
theorem AntoineCurve.check_outOfRange_iff (c : AntoineCurve) (T_K : ℚ) (cr : Bool)
    (hpos : 0 < T_K) :
    (∃ lo hi, AntoineCurve.checkTemperatureK c T_K cr =
        Except.error (VPError.outOfRange lo hi)) ↔
      (cr = true ∧ ∃ lo hi, c.valid_range_K = some (lo, hi) ∧
        (T_K < lo ∨ hi < T_K)) := by
  unfold AntoineCurve.checkTemperatureK
  rw [if_neg (not_le.mpr hpos)]
  cases cr
  · rcases hv : c.valid_range_K with _ | ⟨lo, hi⟩ <;> simp only [hv] <;> simp
  · rcases hv : c.valid_range_K with _ | ⟨lo, hi⟩
    · simp only [hv]
      simp
    · simp only [hv]
      by_cases hout : T_K < lo ∨ hi < T_K
      · simp [hout]
        exact ⟨lo, hi, ⟨rfl, rfl⟩, hout⟩
      · simp [hout]
        push_neg at hout
        exact hout

/-- For positive Kelvin input, the temperature check either passes or
produces an out-of-range error. -/
theorem AntoineCurve.check_pos_cases (c : AntoineCurve) (T_K : ℚ) (cr : Bool)
    (hpos : 0 < T_K) :
    AntoineCurve.checkTemperatureK c T_K cr = Except.ok () ∨
    ∃ lo hi, AntoineCurve.checkTemperatureK c T_K cr =
      Except.error (VPError.outOfRange lo hi) := by
  unfold AntoineCurve.checkTemperatureK
  rw [if_neg (not_le.mpr hpos)]
  cases cr
  · rcases hv : c.valid_range_K with _ | ⟨lo, hi⟩ <;> simp only [hv] <;> simp
  · rcases hv : c.valid_range_K with _ | ⟨lo, hi⟩
    · simp only [hv]
      simp
    · simp only [hv]
      by_cases hout : T_K < lo ∨ hi < T_K
      · refine Or.inr ⟨lo, hi, ?_⟩
        simp [hout]
      · refine Or.inl ?_
        simp [hout]

/-! ## Claim theorems -/

/-- C10: for every Pressure unit u and every value v, converting from u to u
returns v exactly, because the stored scale ratio TO_PA[u]/TO_PA[u] is
exactly 1; no tolerance is involved in the same-unit identity. -/
theorem C10_pressure_same_unit_identity (u : Pressure.Units) (v : ℚ) :
    Pressure.convert v u u = some v ∧ Pressure.scale u / Pressure.scale u = 1 := by
  have h1 := Pressure.pressure_lookup_toNat u
  have hdiv : Pressure.scale u / Pressure.scale u = 1 := div_self (Pressure.pressure_scale_ne_zero u)
  refine ⟨?_, hdiv⟩
  unfold Pressure.convert Pressure.convertIdx
  rw [h1]
  simp [hdiv]

/-- C6: Temperature.convert computes
(value*scale[from]+offset[from]-offset[to])/scale[to] over the stored
tables, Pressure.convert computes value*scale[from]/scale[to], and in
particular 0 degree C converts to 273.15 K and 32 degree F converts to
0 degree C. -/
theorem C6_convert_affine_and_multiplicative :
    (∀ (v : ℚ) (u w : Temperature.Units),
      Temperature.convert v u w =
        some ((v * Temperature.scale u + Temperature.offset u - Temperature.offset w) /
          Temperature.scale w)) ∧
    (∀ (v : ℚ) (u w : Pressure.Units),
      Pressure.convert v u w = some (v * Pressure.scale u / Pressure.scale w)) ∧
    Temperature.convert 0 Temperature.Units.C Temperature.Units.K = some 273.15 ∧
    Temperature.convert 32 Temperature.Units.F Temperature.Units.C = some 0 := by
  have hT : ∀ (v : ℚ) (u w : Temperature.Units),
      Temperature.convert v u w =
        some ((v * Temperature.scale u + Temperature.offset u - Temperature.offset w) /
          Temperature.scale w) := by
    intro v u w
    unfold Temperature.convert Temperature.convertIdx
    rw [(Temperature.temperature_lookup_toNat u).1, (Temperature.temperature_lookup_toNat u).2,
        (Temperature.temperature_lookup_toNat w).1, (Temperature.temperature_lookup_toNat w).2]
  refine ⟨hT, ?_, ?_, ?_⟩
  · intro v u w
    unfold Pressure.convert Pressure.convertIdx
    rw [Pressure.pressure_lookup_toNat u, Pressure.pressure_lookup_toNat w]
    exact congrArg some (mul_div_assoc v _ _).symm
  · rw [hT]
    have h1 : Temperature.scale Temperature.Units.C = 1 := by norm_num [Temperature.scale,
      Temperature.Units.toNat, Temperature.SCALE_TO_K]
    have h2 : Temperature.offset Temperature.Units.C = 273.15 := by norm_num [Temperature.offset,
      Temperature.Units.toNat, Temperature.OFFSET_TO_K]
    have h3 : Temperature.scale Temperature.Units.K = 1 := by norm_num [Temperature.scale,
      Temperature.Units.toNat, Temperature.SCALE_TO_K]
    have h4 : Temperature.offset Temperature.Units.K = 0 := by norm_num [Temperature.offset,
      Temperature.Units.toNat, Temperature.OFFSET_TO_K]
    rw [h1, h2, h3, h4]
    norm_num
  · rw [hT]
    have h1 : Temperature.scale Temperature.Units.F = 5/9 := by norm_num [Temperature.scale,
      Temperature.Units.toNat, Temperature.SCALE_TO_K]
    have h2 : Temperature.offset Temperature.Units.F = 459.67 * 5 / 9 := by
      norm_num [Temperature.offset, Temperature.Units.toNat, Temperature.OFFSET_TO_K]
    have h3 : Temperature.scale Temperature.Units.C = 1 := by norm_num [Temperature.scale,
      Temperature.Units.toNat, Temperature.SCALE_TO_K]
    have h4 : Temperature.offset Temperature.Units.C = 273.15 := by norm_num [Temperature.offset,
      Temperature.Units.toNat, Temperature.OFFSET_TO_K]
    rw [h1, h2, h3, h4]
    norm_num

/-- C9: Grid1D construction fails exactly when b <= a, or N <= 0, or the
grid type is CLOSED with N < 2; every other argument combination passes
validation. -/
theorem C9_grid_validation (a b : ℚ) (N : ℤ) (gt : GridType1D) :
    (∃ e, Grid1D.postInit a b N gt = Except.error e) ↔
      b ≤ a ∨ N ≤ 0 ∨ (gt = GridType1D.CLOSED ∧ N < 2) := by
  unfold Grid1D.postInit
  split_ifs with h1 h2 h3
  · simp; tauto
  · simp; tauto
  · simp; tauto
  · simp
    refine ⟨not_le.mp h1, by omega, fun hgt => ?_⟩
    by_contra hlt
    exact h3 ⟨hgt, by omega⟩

/-- C2 counterexample: a unit identifier foreign to the Pressure
enumeration, Temperature.Units.F with ordinal 3, passed as the from-unit of
Pressure.convert does not fail at all: the conversion silently succeeds,
using the scale factor of the Pressure unit with the same ordinal (GPa). -/
theorem C2_counterexample :
    Pressure.convertIdx 1 Temperature.Units.F.toNat Pressure.Units.Pa.toNat
      = some (1.0e9 : ℚ) ∧
    (Pressure.convertIdx 1 Temperature.Units.F.toNat Pressure.Units.Pa.toNat).isSome := by
  have h : Pressure.convertIdx 1 Temperature.Units.F.toNat Pressure.Units.Pa.toNat
      = some (1.0e9 : ℚ) := by
    unfold Pressure.convertIdx
    norm_num [Temperature.Units.toNat, Pressure.Units.toNat, Pressure.TO_PA]
  exact ⟨h, by rw [h]; rfl⟩

/-- C2 amended: the convert operations perform no unit-membership
validation.  A unit identifier is used only through its integer ordinal:
every ordinal inside the scale-table range is accepted (even if it belongs
to another quantity), and an ordinal outside the range fails with an
IndexError, not an unsupported-unit error. -/
theorem C2_amended_no_membership_validation :
    (∀ (v : ℚ) (i j : ℕ),
      (Pressure.convertIdx v i j).isSome ↔ (i < 14 ∧ j < 14)) ∧
    (∀ (v : ℚ) (i j : ℕ),
      (Temperature.convertIdx v i j).isSome ↔ (i < 5 ∧ j < 5)) := by
  constructor
  · intro v i j
    unfold Pressure.convertIdx
    rcases h1 : Pressure.TO_PA[i]? with _ | sf <;>
      rcases h2 : Pressure.TO_PA[j]? with _ | st <;> simp
    · have hi := List.getElem?_eq_none_iff.mp h1
      simp [Pressure.TO_PA] at hi
      intro hlt; omega
    · have hi := List.getElem?_eq_none_iff.mp h1
      simp [Pressure.TO_PA] at hi
      intro hlt; omega
    · have hj := List.getElem?_eq_none_iff.mp h2
      simp [Pressure.TO_PA] at hj
      intro hlt; omega
    · have hi := (List.getElem?_eq_some.mp h1).1
      have hj := (List.getElem?_eq_some.mp h2).1
      simp [Pressure.TO_PA] at hi hj
      exact ⟨hi, hj⟩
  · intro v i j
    unfold Temperature.convertIdx
    rcases h1 : Temperature.SCALE_TO_K[i]? with _ | sf <;>
      rcases h2 : Temperature.OFFSET_TO_K[i]? with _ | of_ <;>
        rcases h3 : Temperature.SCALE_TO_K[j]? with _ | st <;>
          rcases h4 : Temperature.OFFSET_TO_K[j]? with _ | ot <;> simp
    all_goals
      first
      | · have hi := List.getElem?_eq_none_iff.mp h1
          simp [Temperature.SCALE_TO_K] at hi
          intro hlt; omega
      | · have hi := List.getElem?_eq_none_iff.mp h2
          simp [Temperature.OFFSET_TO_K] at hi
          intro hlt; omega
      | · have hj := List.getElem?_eq_none_iff.mp h3
          simp [Temperature.SCALE_TO_K] at hj
          intro hlt; omega
      | · have hj := List.getElem?_eq_none_iff.mp h4
          simp [Temperature.OFFSET_TO_K] at hj
          intro hlt; omega
      | · have hi := (List.getElem?_eq_some.mp h1).1
          have hj := (List.getElem?_eq_some.mp h3).1
          simp [Temperature.SCALE_TO_K] at hi hj
          exact ⟨hi, hj⟩

/-- C4 counterexample: the fraction vector [0.5, 0.500005] has matching name
count and non-negative entries, and its sum 1.000005 differs from 1 by
5e-6, more than the tolerance 1e-6 stated by the claim; yet construction
accepts it, because np.isclose uses the tolerance 1e-8 + 1e-5. -/
theorem C4_counterexample :
    MolarMixture.postInit ["a", "b"] [1/2, 500005/1000000] = Except.ok () ∧
    ¬ |([1/2, 500005/1000000] : List ℚ).sum - 1| ≤ 1/1000000 := by
  refine ⟨?_, by norm_num [abs_of_nonneg]⟩
  unfold MolarMixture.postInit
  rw [if_neg (by norm_num), if_neg ?hneg, if_neg ?hclose]
  case hneg =>
    rintro ⟨x, hx, hlt⟩
    simp at hx
    rcases hx with h | h <;> rw [h] at hlt <;> norm_num at hlt
  case hclose =>
    rw [not_not]
    unfold MolarMixture.npIsclose MolarMixture.atol MolarMixture.rtol
    norm_num [abs_of_nonneg]

/-- C4 amended: MolarMixture construction succeeds exactly when the name and
fraction lists have equal length, every fraction is non-negative, and the
fraction sum is np.isclose to 1, i.e. differs from 1 by at most
1e-8 + 1e-5 = 1.001e-5 (not 1e-6). -/
theorem C4_amended_isclose_tolerance (names : List String) (X_arr : List ℚ) :
    MolarMixture.postInit names X_arr = Except.ok () ↔
      (names.length = X_arr.length ∧ (∀ x ∈ X_arr, 0 ≤ x) ∧
       |X_arr.sum - 1| ≤ 1001/100000000) := by
  have hiff : MolarMixture.npIsclose X_arr.sum 1 ↔ |X_arr.sum - 1| ≤ 1001/100000000 := by
    unfold MolarMixture.npIsclose MolarMixture.atol MolarMixture.rtol
    rw [abs_one]
    norm_num
  unfold MolarMixture.postInit
  simp only [show (1.0 : ℚ) = 1 from by norm_num]
  split_ifs with h1 h2 h3
  · simp only [reduceCtorEq, false_iff]
    rintro ⟨hlen, -, -⟩
    exact h1 hlen
  · simp only [reduceCtorEq, false_iff]
    rintro ⟨-, hall, -⟩
    obtain ⟨x, hx, hlt⟩ := h2
    exact absurd (hall x hx) (not_le.mpr hlt)
  · constructor
    · intro _
      push_neg at h1 h2
      exact ⟨h1, h2, hiff.mp h3⟩
    · intro _
      rfl
  · simp only [reduceCtorEq, false_iff]
    rintro ⟨-, -, hb⟩
    exact h3 (hiff.mpr hb)

/-- C8: for a valid CLOSED grid (b > a, N >= 2) the point array has exactly
N points, starts at a, ends at b, and the spacing is (b-a)/(N-1). -/
theorem C8_closed_grid_points (a b : ℚ) (N : ℤ) (_hab : a < b) (hN : 2 ≤ N) :
    (Grid1D.X ⟨a, b, N, GridType1D.CLOSED⟩).length = N.toNat ∧
    (Grid1D.X ⟨a, b, N, GridType1D.CLOSED⟩)[0]? = some a ∧
    (Grid1D.X ⟨a, b, N, GridType1D.CLOSED⟩)[N.toNat - 1]? = some b ∧
    Grid1D.dx ⟨a, b, N, GridType1D.CLOSED⟩ = (b - a) / ((N : ℚ) - 1) := by
  have hpos : 0 < N.toNat := by omega
  have hcastN : ((N.toNat : ℕ) : ℚ) = (N : ℚ) := by
    exact_mod_cast congrArg (Int.cast : ℤ → ℚ) (Int.toNat_of_nonneg (by omega))
  have hne : ((N : ℚ) - 1) ≠ 0 := by
    have h2 : (2 : ℚ) ≤ (N : ℚ) := by exact_mod_cast hN
    intro h
    rw [sub_eq_zero] at h
    rw [h] at h2
    norm_num at h2
  have hX : Grid1D.X ⟨a, b, N, GridType1D.CLOSED⟩ =
      (List.range N.toNat).map
        (fun i : ℕ => a + (i : ℚ) * ((b - a) / ((N : ℚ) - 1))) := rfl
  refine ⟨?_, ?_, ?_, ?_⟩
  · rw [hX, List.length_map, List.length_range]
  · rw [hX, List.getElem?_map, List.getElem?_range hpos]
    simp
  · rw [hX, List.getElem?_map, List.getElem?_range (by omega : N.toNat - 1 < N.toNat)]
    simp only [Option.map_some']
    congr 1
    rw [Nat.cast_sub (by omega : 1 ≤ N.toNat), hcastN, Nat.cast_one]
    field_simp
  · simp [Grid1D.dx, Grid1D.L]

/-- C5: for every quantity and every unit of its enumeration, converting the
representative value 123.456 to the canonical unit and back returns it
exactly (for Density, with the explicit dimension 3 required by its fixed-3D
units). -/
theorem C5_roundtrip_all_quantities :
    (∀ u : Pressure.Units,
      Pressure.from_canonical (Pressure.to_canonical 123.456 u) u = 123.456) ∧
    (∀ u : Temperature.Units,
      Temperature.from_canonical (Temperature.to_canonical 123.456 u) u = 123.456) ∧
    (∀ u : Fin Length.TO_M.length,
      Length.from_canonical (Length.to_canonical 123.456 u) u = 123.456) ∧
    (∀ u : Fin Mass.TO_KG.length,
      Mass.from_canonical (Mass.to_canonical 123.456 u) u = 123.456) ∧
    (∀ u : Fin Time.TO_S.length,
      Time.from_canonical (Time.to_canonical 123.456 u) u = 123.456) ∧
    (∀ u : Fin Energy.TO_J.length,
      Energy.from_canonical (Energy.to_canonical 123.456 u) u = 123.456) ∧
    (∀ u : Fin Force.TO_N.length,
      Force.from_canonical (Force.to_canonical 123.456 u) u = 123.456) ∧
    (∀ u : Fin Charge.TO_C.length,
      Charge.from_canonical (Charge.to_canonical 123.456 u) u = 123.456) ∧
    (∀ u : Fin Dipole.TO_C_M.length,
      Dipole.from_canonical (Dipole.to_canonical 123.456 u) u = 123.456) ∧
    (∀ u : Fin ElectricField.TO_V_per_m.length,
      ElectricField.from_canonical (ElectricField.to_canonical 123.456 u) u = 123.456) ∧
    (∀ u : Fin Velocity.TO_m_per_s.length,
      Velocity.from_canonical (Velocity.to_canonical 123.456 u) u = 123.456) ∧
    (∀ u : Fin Viscosity.TO_Pa_s.length,
      Viscosity.from_canonical (Viscosity.to_canonical 123.456 u) u = 123.456) ∧
    (∀ u : Fin Torque.TO_N_M.length,
      Torque.from_canonical (Torque.to_canonical 123.456 u) u = 123.456) ∧
    (∀ u : Fin MolarMass.TO_KG_PER_MOL.length,
      MolarMass.from_canonical (MolarMass.to_canonical 123.456 u) u = 123.456) ∧
    (∀ u : Fin ParticleMass.TO_KG.length,
      ParticleMass.from_canonical (ParticleMass.to_canonical 123.456 u) u = 123.456) ∧
    (∀ u : Fin Density.TO_KG_PER_M_DIM.length,
      (Density.to_canonical 123.456 u 3).bind
        (fun v => Density.from_canonical v u 3) = Except.ok 123.456) := by
  refine ⟨?_, ?_, ?_, ?_, ?_, ?_, ?_, ?_, ?_, ?_, ?_, ?_, ?_, ?_, ?_, ?_⟩
  · intro u
    unfold Pressure.from_canonical Pressure.to_canonical
    exact mul_div_cancel_right₀ _ (Pressure.pressure_scale_ne_zero u)
  · intro u
    unfold Temperature.from_canonical Temperature.to_canonical
    rw [add_sub_cancel_right]
    exact mul_div_cancel_right₀ _ (Temperature.temperature_scale_ne_zero u)
  · intro u
    exact table_roundtrip _ _ (by simp [Length.TO_M, Length.A0]; norm_num) u
  · intro u
    exact table_roundtrip _ _ (by simp [Mass.TO_KG]; norm_num) u
  · intro u
    exact table_roundtrip _ _ (by simp [Time.TO_S, Time.T0]; norm_num) u
  · intro u
    exact table_roundtrip _ _
      (by simp [Energy.TO_J, Energy.Q, Energy.EH]; norm_num) u
  · intro u
    exact table_roundtrip _ _
      (by simp [Force.TO_N, Force.KCAL_PER_MOL_A_TO_N, Force.EV_PER_A_TO_N,
        Force.HA_PER_BOHR_TO_N, Force.KCAL_TO_J, Force.N_A, Force.A_TO_M,
        Force.E, Force.EH, Force.A0]; norm_num) u
  · intro u
    exact table_roundtrip _ _
      (by simp [Charge.TO_C, Charge.ESU_TO_C, Charge.C_CM_PER_S, Charge.E]; norm_num) u
  · intro u
    exact table_roundtrip _ _
      (by simp [Dipole.TO_C_M, Dipole.ESU_TO_C, Dipole.C_CM_PER_S, Dipole.CM_TO_M,
        Dipole.DEBYE_TO_C_M, Dipole.E, Dipole.A_TO_M, Dipole.A0]; norm_num) u
  · intro u
    exact table_roundtrip _ _
      (by simp [ElectricField.TO_V_per_m, ElectricField.CM_TO_M, ElectricField.A_TO_M,
        ElectricField.STATV_TO_V, ElectricField.C_CM_PER_S, ElectricField.E0,
        ElectricField.EH, ElectricField.E, ElectricField.A0]; norm_num) u
  · intro u
    exact table_roundtrip _ _
      (by simp [Velocity.TO_m_per_s, Velocity.CM_TO_M, Velocity.A_TO_M,
        Velocity.FS_TO_S, Velocity.PS_TO_S, Velocity.BOHR_PER_T0_TO_M_PER_S,
        Velocity.A0, Velocity.T0]; norm_num) u
  · intro u
    exact table_roundtrip _ _ (by simp [Viscosity.TO_Pa_s]; norm_num) u
  · intro u
    exact table_roundtrip _ _
      (by simp [Torque.TO_N_M, Torque.Q, Torque.FT_LBF_TO_N_M,
        Torque.IN_LBF_TO_N_M]; norm_num) u
  · intro u
    exact table_roundtrip _ _ (by simp [MolarMass.TO_KG_PER_MOL]; norm_num) u
  · intro u
    exact table_roundtrip _ _ (by simp [ParticleMass.TO_KG, ParticleMass.MU]; norm_num) u
  · intro u
    fin_cases u <;>
      simp only [Density.to_canonical, Density.from_canonical,
        Density.TO_KG_PER_M_DIM, Except.bind] <;>
      norm_num [Density.G_TO_KG, Density.CM_TO_M, Density.M_E, Density.A0]

/-- C8 witness: the closed-grid theorem applied to Grid1D(0, 1, 5, CLOSED). -/
theorem C8_closed_grid_points_witness :
    (Grid1D.X ⟨0, 1, 5, GridType1D.CLOSED⟩).length = (5 : ℤ).toNat ∧
    (Grid1D.X ⟨0, 1, 5, GridType1D.CLOSED⟩)[0]? = some 0 ∧
    (Grid1D.X ⟨0, 1, 5, GridType1D.CLOSED⟩)[(5 : ℤ).toNat - 1]? = some 1 ∧
    Grid1D.dx ⟨0, 1, 5, GridType1D.CLOSED⟩ = (1 - 0) / (((5 : ℤ) : ℚ) - 1) :=
  C8_closed_grid_points 0 1 5 (by norm_num) (by norm_num)

/-- C7: the public evaluation P_Pa rejects any input whose Kelvin value is
non-positive regardless of check_range, and produces a range rejection
exactly when check_range is requested, a validity interval is declared, and
the Kelvin value falls outside it. -/
theorem C7_pPa_rejection (c : AntoineCurve) (T : ℚ) (cr : Bool) :
    (AntoineCurve.temperature_to_kelvin c T ≤ 0 →
      AntoineCurve.P_Pa c T cr = Except.error VPError.nonpositiveT) ∧
    (0 < AntoineCurve.temperature_to_kelvin c T →
      ((∃ lo hi, AntoineCurve.P_Pa c T cr =
          Except.error (VPError.outOfRange lo hi)) ↔
        (cr = true ∧ ∃ lo hi, c.valid_range_K = some (lo, hi) ∧
          (AntoineCurve.temperature_to_kelvin c T < lo ∨
            hi < AntoineCurve.temperature_to_kelvin c T)))) := by
  constructor
  · intro hle
    rw [AntoineCurve.P_Pa_def]
    have hchk : AntoineCurve.checkTemperatureK c
        (AntoineCurve.temperature_to_kelvin c T) cr =
        Except.error VPError.nonpositiveT := by
      unfold AntoineCurve.checkTemperatureK
      rw [if_pos hle]
    rw [hchk]
    rfl
  · intro hpos
    rcases AntoineCurve.check_pos_cases c (AntoineCurve.temperature_to_kelvin c T)
        cr hpos with hok | ⟨lo, hi, herr⟩
    · rw [AntoineCurve.P_Pa_def, hok]
      constructor
      · rintro ⟨lo, hi, habs⟩
        exact absurd habs (AntoineCurve.P_Pa_from_K_not_outOfRange c _ cr lo hi)
      · intro hrhs
        obtain ⟨lo, hi, herr⟩ :=
          (AntoineCurve.check_outOfRange_iff c _ cr hpos).mpr hrhs
        rw [hok] at herr
        exact absurd herr (by simp)
    · rw [AntoineCurve.P_Pa_def, herr]
      have hiff := (AntoineCurve.check_outOfRange_iff c _ cr hpos).mp ⟨lo, hi, herr⟩
      exact iff_of_true ⟨lo, hi, rfl⟩ hiff

/-- C7 witness: for the curve with declared range [200, 400] K, the input
-5 K is rejected as non-positive and the input 500 K is rejected as out of
range. -/
theorem C7_pPa_rejection_witness :
    AntoineCurve.P_Pa c7curve (-5) true = Except.error VPError.nonpositiveT ∧
    (∃ lo hi, AntoineCurve.P_Pa c7curve 500 true =
      Except.error (VPError.outOfRange lo hi)) :=
  ⟨(C7_pPa_rejection c7curve (-5) true).1
      (by norm_num [AntoineCurve.temperature_to_kelvin, Temperature.to_canonical,
        Temperature.scale, Temperature.offset, Temperature.Units.toNat,
        Temperature.SCALE_TO_K, Temperature.OFFSET_TO_K, c7curve]),
   ((C7_pPa_rejection c7curve 500 true).2
      (by norm_num [AntoineCurve.temperature_to_kelvin, Temperature.to_canonical,
        Temperature.scale, Temperature.offset, Temperature.Units.toNat,
        Temperature.SCALE_TO_K, Temperature.OFFSET_TO_K, c7curve])).mpr
     ⟨rfl, 200, 400, rfl, Or.inr
      (by norm_num [AntoineCurve.temperature_to_kelvin, Temperature.to_canonical,
        Temperature.scale, Temperature.offset, Temperature.Units.toNat,
        Temperature.SCALE_TO_K, Temperature.OFFSET_TO_K, c7curve])⟩⟩

/-- C1 (code bug): the Antoine evaluation uses the raw Kelvin temperature in
the formula even when the declared coefficient-table unit is Celsius.  For
the Celsius-table curve c1curve at T_K = 300, the code computes
log10P = A - B/(T_K + C) = 5 and the public path returns 10 to that power,
while the claim (and the class docstring) require T_coeff = 26.85 degC,
giving a different value; the field T_unit_native is never read during
evaluation. -/
theorem C1_antoine_ignores_declared_native_unit :
    AntoineCurve.log10P_native_from_K c1curve 300 true = Except.ok 5 ∧
    AntoineCurve.specAntoineLog10 c1curve 300 = 7 - 1000 / (26.85 + 200) ∧
    AntoineCurve.specAntoineLog10 c1curve 300 ≠ 5 ∧
    AntoineCurve.P_Pa c1curve 300 true = Except.ok (AntoineCurve.pow10 5) := by
  have hchk : AntoineCurve.checkTemperatureK c1curve 300 true = Except.ok () := by
    unfold AntoineCurve.checkTemperatureK c1curve
    norm_num
  have harg : c1curve.A - c1curve.B / (300 + c1curve.C) = 5 := by
    norm_num [c1curve]
  refine ⟨?_, ?_, ?_, ?_⟩
  · unfold AntoineCurve.log10P_native_from_K
    rw [hchk]
    show (if (300 : ℚ) + c1curve.C = 0 then _ else _) = _
    rw [if_neg (by norm_num [c1curve] : ¬((300 : ℚ) + c1curve.C = 0))]
    rw [harg]
  · norm_num [AntoineCurve.specAntoineLog10, Temperature.from_canonical,
      Temperature.scale, Temperature.offset, Temperature.Units.toNat,
      Temperature.SCALE_TO_K, Temperature.OFFSET_TO_K, c1curve]
  · norm_num [AntoineCurve.specAntoineLog10, Temperature.from_canonical,
      Temperature.scale, Temperature.offset, Temperature.Units.toNat,
      Temperature.SCALE_TO_K, Temperature.OFFSET_TO_K, c1curve]
  · have hTK : AntoineCurve.temperature_to_kelvin c1curve 300 = 300 := by
      norm_num [AntoineCurve.temperature_to_kelvin, Temperature.to_canonical,
        Temperature.scale, Temperature.offset, Temperature.Units.toNat,
        Temperature.SCALE_TO_K, Temperature.OFFSET_TO_K, c1curve]
    rw [AntoineCurve.P_Pa_def, hTK, hchk]
    show AntoineCurve.P_Pa_from_K c1curve 300 true = Except.ok (AntoineCurve.pow10 5)
    unfold AntoineCurve.P_Pa_from_K
    rw [if_neg (by norm_num [c1curve] : ¬((300 : ℚ) + c1curve.C = 0))]
    simp only [harg]
    rw [if_pos (show c1curve.P_unit_native = Pressure.Units.Pa from rfl)]

/-- C3 counterexample: constructing a HertzKnudsenLangmuir bundle with the
invalid mass m_kg = -1 succeeds (the dataclass performs no construction-time
validation), and the failure surfaces only when Phi is evaluated. -/
theorem C3_counterexample :
    HertzKnudsenLangmuir.construct c3curve (-1) 1 0 =
      Except.ok ⟨c3curve, -1, 1, 0⟩ ∧
    HertzKnudsenLangmuir.Phi ⟨c3curve, -1, 1, 0⟩ 300 true =
      Except.error (VPError.invalidParam "m_kg must be > 0.") := by
  refine ⟨rfl, ?_⟩
  have hv : HertzKnudsenLangmuir.validate ⟨c3curve, -1, 1, 0⟩ =
      Except.error (VPError.invalidParam "m_kg must be > 0.") := by
    unfold HertzKnudsenLangmuir.validate
    rw [if_neg (by norm_num), if_pos (by norm_num)]
  unfold HertzKnudsenLangmuir.Phi
  rw [hv]
  rfl

/-- C3 amended: construction never validates (the dataclass defines no
post-init hook), and invalid parameters (negative alpha, non-positive mass,
negative background pressure) make every evaluation of Phi or Gamma fail
with the corresponding parameter error. -/
theorem C3_amended_validation_at_evaluation
    (h : HertzKnudsenLangmuir) (T : ℚ) (cr : Bool)
    (hinv : h.alpha < 0 ∨ h.m_kg ≤ 0 ∨ h.P_bg_Pa < 0) :
    (∀ (vp : AntoineCurve) (m a p : ℚ),
      HertzKnudsenLangmuir.construct vp m a p = Except.ok ⟨vp, m, a, p⟩) ∧
    (∃ msg, HertzKnudsenLangmuir.Phi h T cr =
      Except.error (VPError.invalidParam msg)) ∧
    (∃ msg, HertzKnudsenLangmuir.Gamma h T cr =
      Except.error (VPError.invalidParam msg)) := by
  have hval : ∃ msg, HertzKnudsenLangmuir.validate h =
      Except.error (VPError.invalidParam msg) := by
    unfold HertzKnudsenLangmuir.validate
    split_ifs with h1 h2 h3
    · exact ⟨_, rfl⟩
    · exact ⟨_, rfl⟩
    · exact ⟨_, rfl⟩
    · rcases hinv with hx | hx | hx
      · exact absurd hx h1
      · exact absurd hx h2
      · exact absurd hx h3
  obtain ⟨msg, hmsg⟩ := hval
  have hPhi : HertzKnudsenLangmuir.Phi h T cr =
      Except.error (VPError.invalidParam msg) := by
    unfold HertzKnudsenLangmuir.Phi
    rw [hmsg]
    rfl
  refine ⟨fun vp m a p => rfl, ⟨msg, hPhi⟩, ⟨msg, ?_⟩⟩
  unfold HertzKnudsenLangmuir.Gamma
  rw [hPhi]
  rfl

/-- C3 amended witness: the evaluation-time failure theorem applied to a
bundle constructed with m_kg = -1. -/
theorem C3_amended_validation_witness :
    ((⟨c3curve, -1, 1, 0⟩ : HertzKnudsenLangmuir).alpha < 0 ∨
     (⟨c3curve, -1, 1, 0⟩ : HertzKnudsenLangmuir).m_kg ≤ 0 ∨
     (⟨c3curve, -1, 1, 0⟩ : HertzKnudsenLangmuir).P_bg_Pa < 0) ∧
    ((∀ (vp : AntoineCurve) (m a p : ℚ),
      HertzKnudsenLangmuir.construct vp m a p = Except.ok ⟨vp, m, a, p⟩) ∧
    (∃ msg, HertzKnudsenLangmuir.Phi ⟨c3curve, -1, 1, 0⟩ 300 true =
      Except.error (VPError.invalidParam msg)) ∧
    (∃ msg, HertzKnudsenLangmuir.Gamma ⟨c3curve, -1, 1, 0⟩ 300 true =
      Except.error (VPError.invalidParam msg))) :=
  ⟨Or.inr (Or.inl (by norm_num)),
   C3_amended_validation_at_evaluation ⟨c3curve, -1, 1, 0⟩ 300 true
     (Or.inr (Or.inl (by norm_num)))⟩

end Physkit
